import Mathlib

/-!
Shallow embedding of `src/pages/api_interceptor.py` (class `APIInterceptor`):
an API request/response recorder with query and validation helpers.

Python strings are modelled as `String`, Python `needle in haystack` on
strings as character-list infix containment, Python lists as `List`,
Python dicts of captured metadata as structures, and `json.loads` as an
executable JSON parser returning `Option Json` (`none` = `JSONDecodeError`).
Exceptions escaping a method are modelled with `Except`.
-/

/-- Python `needle in hay` for strings: substring containment. -/
def strContains (hay needle : String) : Bool :=
  decide (needle.toList <:+: hay.toList)

/-- One entry of `self.requests`: the dict built in `_handle_route`
(keys url/method/headers/post_data/timestamp). -/
structure CapturedRequest where
  url : String
  method : String
  headers : List (String × String)
  post_data : Option String
  timestamp : String
deriving Repr, DecidableEq

/-- One entry of `self.responses`: the dict built in `_handle_route`
(keys url/status/status_text/headers/body/timestamp). -/
structure CapturedResponse where
  url : String
  status : Int
  status_text : String
  headers : List (String × String)
  body : String
  timestamp : String
deriving Repr, DecidableEq

/-- The mutable state of an `APIInterceptor` instance:
`self.requests` and `self.responses` (the logger carries no queryable state). -/
structure APIInterceptor where
  requests : List CapturedRequest
  responses : List CapturedResponse
deriving Repr, DecidableEq

/-- `APIInterceptor.__init__`: both logs start empty. -/
def APIInterceptor.init : APIInterceptor :=
  { requests := [], responses := [] }

/-- `get_requests(filter_url=None)`. Python truthiness: the filter branch is
taken only when `filter_url` is neither `None` nor the empty string. -/
def get_requests (st : APIInterceptor) (filter_url : Option String) :
    List CapturedRequest :=
  match filter_url with
  | some f =>
      if f ≠ "" then st.requests.filter (fun req => strContains req.url f)
      else st.requests
  | none => st.requests

/-- `get_responses(filter_url=None)`. Same truthiness as `get_requests`. -/
def get_responses (st : APIInterceptor) (filter_url : Option String) :
    List CapturedResponse :=
  match filter_url with
  | some f =>
      if f ≠ "" then st.responses.filter (fun resp => strContains resp.url f)
      else st.responses
  | none => st.responses

/-- `get_last_request()`: `self.requests[-1] if self.requests else None`. -/
def get_last_request (st : APIInterceptor) : Option CapturedRequest :=
  st.requests.getLast?

/-- `get_last_response()`: `self.responses[-1] if self.responses else None`. -/
def get_last_response (st : APIInterceptor) : Option CapturedResponse :=
  st.responses.getLast?

/-- `clear_history()`: `self.requests.clear(); self.responses.clear()`. -/
def clear_history (_st : APIInterceptor) : APIInterceptor :=
  { requests := [], responses := [] }

/-- `validate_request_contains(url_substring, expected_params)`: take the
last request whose url contains the substring; `False` if none; else check
that every formatted `param=value` pair occurs literally in its url (dict
iteration order, early return on the first miss). -/
def validate_request_contains (st : APIInterceptor) (url_substring : String)
    (expected_params : List (String × String)) : Bool :=
  let matching_requests := get_requests st (some url_substring)
  match matching_requests.getLast? with
  | none => false
  | some last_request =>
      expected_params.all
        (fun pv => strContains last_request.url (pv.1 ++ "=" ++ pv.2))

/-- A parsed JSON value, the result of Python `json.loads`. Numbers are
kept as `mantissa × 10 ^ exponent`; nothing in the interceptor ever reads
a numeric value, so this representation is never observed. -/
inductive Json where
  | null
  | bool (b : Bool)
  | num (mantissa : Int) (exp10 : Int)
  | str (s : String)
  | arr (elems : List Json)
  | obj (entries : List (String × Json))

/-- JSON whitespace skipped by Python's parser: space, tab, newline, CR. -/
def skipWs : List Char → List Char
  | c :: cs =>
      if c = ' ' ∨ c = '\t' ∨ c = '\n' ∨ c = '\r' then skipWs cs else c :: cs
  | [] => []

/-- Hex digit value, for \uXXXX escapes. -/
def hexDigitVal (c : Char) : Option Nat :=
  if '0' ≤ c ∧ c ≤ '9' then some (c.toNat - '0'.toNat)
  else if 'a' ≤ c ∧ c ≤ 'f' then some (c.toNat - 'a'.toNat + 10)
  else if 'A' ≤ c ∧ c ≤ 'F' then some (c.toNat - 'A'.toNat + 10)
  else none

/-- Decode one single-character JSON string escape. -/
def decodeEscape (c : Char) : Option Char :=
  if c = '"' then some '"'
  else if c = '\\' then some '\\'
  else if c = '/' then some '/'
  else if c = 'b' then some (Char.ofNat 8)
  else if c = 'f' then some (Char.ofNat 12)
  else if c = 'n' then some '\n'
  else if c = 'r' then some '\r'
  else if c = 't' then some '\t'
  else none

/-- Characters of a JSON string body up to the closing quote; raw control
characters below 0x20 are rejected, as in Python's strict mode. -/
def parseStringChars : Nat → List Char → Option (List Char × List Char)
  | 0, _ => none
  | _ + 1, [] => none
  | fuel + 1, c :: cs =>
      if c = '"' then some ([], cs)
      else if c = '\\' then
        match cs with
        | 'u' :: h1 :: h2 :: h3 :: h4 :: rest =>
            match hexDigitVal h1, hexDigitVal h2, hexDigitVal h3, hexDigitVal h4 with
            | some a, some b, some d, some e =>
                match parseStringChars fuel rest with
                | some (s, r) =>
                    some (Char.ofNat (((a * 16 + b) * 16 + d) * 16 + e) :: s, r)
                | none => none
            | _, _, _, _ => none
        | e :: rest =>
            match decodeEscape e with
            | some d =>
                match parseStringChars fuel rest with
                | some (s, r) => some (d :: s, r)
                | none => none
            | none => none
        | [] => none
      else if c.toNat < 32 then none
      else
        match parseStringChars fuel cs with
        | some (s, r) => some (c :: s, r)
        | none => none

/-- Fold decimal digits into a natural number. -/
def digitsToNat (ds : List Char) : Nat :=
  ds.foldl (fun acc c => acc * 10 + (c.toNat - '0'.toNat)) 0

/-- Parse a JSON number’s digits after the optional minus sign: the JSON
grammar allows a leading `0` only when it is the whole integer part. -/
def parseIntDigits : List Char → Option (List Char × List Char)
  | '0' :: rest => some (['0'], rest)
  | c :: rest =>
      if c.isDigit then
        some (c :: rest.takeWhile Char.isDigit, rest.dropWhile Char.isDigit)
      else none
  | [] => none

/-- Parse a JSON number starting at `cs`, returning mantissa and decimal
exponent together with the remaining input. -/
def parseNumber (cs : List Char) : Option (Json × List Char) :=
  let (neg, cs1) := match cs with
    | '-' :: r => (true, r)
    | _ => (false, cs)
  match parseIntDigits cs1 with
  | none => none
  | some (intDigits, afterInt) =>
    -- a '.' not followed by a digit is a parse error in JSON
    let fracParse : Option (List Char × List Char) := match afterInt with
      | '.' :: r =>
          if (r.takeWhile Char.isDigit) = [] then none
          else some (r.takeWhile Char.isDigit, r.dropWhile Char.isDigit)
      | r => some ([], r)
    match fracParse with
    | none => none
    | some (fracDigits, afterFrac) =>
    let expParse : Option (Int × List Char) := match afterFrac with
      | e :: r =>
          if e = 'e' ∨ e = 'E' then
            let (esign, r2) := match r with
              | '+' :: r2 => ((1 : Int), r2)
              | '-' :: r2 => ((-1 : Int), r2)
              | _ => ((1 : Int), r)
            let eds := r2.takeWhile Char.isDigit
            if eds = [] then none
            else some (esign * (digitsToNat eds : Int), r2.dropWhile Char.isDigit)
          else some (0, afterFrac)
      | [] => some (0, [])
    match expParse with
    | none => none
    | some (e, rest) =>
        let mNat : Nat := digitsToNat (intDigits ++ fracDigits)
        let m : Int := if neg then -(mNat : Int) else (mNat : Int)
        some (Json.num m (e - (fracDigits.length : Int)), rest)

mutual

/-- Parse one JSON value (after skipping leading whitespace). -/
def parseValue : Nat → List Char → Option (Json × List Char)
  | 0, _ => none
  | fuel + 1, cs =>
      match skipWs cs with
      | 'n' :: 'u' :: 'l' :: 'l' :: rest => some (Json.null, rest)
      | 't' :: 'r' :: 'u' :: 'e' :: rest => some (Json.bool true, rest)
      | 'f' :: 'a' :: 'l' :: 's' :: 'e' :: rest => some (Json.bool false, rest)
      | '"' :: rest =>
          match parseStringChars (rest.length + 1) rest with
          | some (s, r) => some (Json.str (String.mk s), r)
          | none => none
      | '[' :: rest =>
          match skipWs rest with
          | ']' :: r2 => some (Json.arr [], r2)
          | cs2 =>
              match parseArrayItems fuel cs2 with
              | some (vs, r) => some (Json.arr vs, r)
              | none => none
      | '{' :: rest =>
          match skipWs rest with
          | '}' :: r2 => some (Json.obj [], r2)
          | cs2 =>
              match parseObjectItems fuel cs2 with
              | some (kvs, r) => some (Json.obj kvs, r)
              | none => none
      | c :: rest =>
          if c = '-' ∨ c.isDigit then parseNumber (c :: rest) else none
      | [] => none

/-- Parse the comma-separated items of a nonempty JSON array, up to and
including the closing bracket. -/
def parseArrayItems : Nat → List Char → Option (List Json × List Char)
  | 0, _ => none
  | fuel + 1, cs =>
      match parseValue fuel cs with
      | none => none
      | some (v, r) =>
          match skipWs r with
          | ',' :: r2 =>
              match parseArrayItems fuel r2 with
              | some (vs, r3) => some (v :: vs, r3)
              | none => none
          | ']' :: r2 => some ([v], r2)
          | _ => none

/-- Parse the comma-separated `"key": value` pairs of a nonempty JSON
object, up to and including the closing brace. -/
def parseObjectItems : Nat → List Char → Option (List (String × Json) × List Char)
  | 0, _ => none
  | fuel + 1, cs =>
      match skipWs cs with
      | '"' :: rest =>
          match parseStringChars (rest.length + 1) rest with
          | none => none
          | some (k, r) =>
              match skipWs r with
              | ':' :: r2 =>
                  match parseValue fuel r2 with
                  | none => none
                  | some (v, r3) =>
                      match skipWs r3 with
                      | ',' :: r4 =>
                          match parseObjectItems fuel r4 with
                          | some (kvs, r5) => some ((String.mk k, v) :: kvs, r5)
                          | none => none
                      | '}' :: r4 => some ([(String.mk k, v)], r4)
                      | _ => none
              | _ => none
      | _ => none

end

/-- Python `json.loads`: parse one JSON document; trailing non-whitespace
is an error ("Extra data"), as is any malformed input (`JSONDecodeError`,
modelled by `none`). -/
def json_loads (s : String) : Option Json :=
  match parseValue (2 * s.length + 4) s.toList with
  | some (v, rest) => if skipWs rest = [] then some v else none
  | none => none

/-- The Python exceptions a validation method can let escape. -/
inductive PyErr where
  | typeError
deriving Repr, DecidableEq

/-- Python `key in parsed` for a string `key` and a `json.loads` result:
key membership on dicts, element membership on lists, substring test on
strings, and a `TypeError` on int/float/bool/None (not iterable). -/
def pyInJson (key : String) (v : Json) : Except PyErr Bool :=
  match v with
  | Json.obj kvs => Except.ok (kvs.any (fun kv => kv.1 == key))
  | Json.arr vs =>
      Except.ok (vs.any (fun x => match x with
        | Json.str s => s == key
        | _ => false))
  | Json.str s => Except.ok (strContains s key)
  | _ => Except.error PyErr.typeError

/-- The `for key in expected_keys` loop of `validate_response_json_schema`:
return `False` at the first key not `in` the parsed body, `True` when the
loop completes; only `json.JSONDecodeError` is caught by the enclosing
`try`, so a `TypeError` from `in` escapes. -/
def checkKeys (keys : List String) (v : Json) : Except PyErr Bool :=
  match keys with
  | [] => Except.ok true
  | k :: ks =>
      match pyInJson k v with
      | Except.error e => Except.error e
      | Except.ok b => if b then checkKeys ks v else Except.ok false

/-- `validate_response_json_schema(url_substring, expected_keys)`: take the
last response whose url contains the substring; `False` if none; parse its
body with `json.loads`, returning `False` on `JSONDecodeError`; then run
the key loop. -/
def validate_response_json_schema (st : APIInterceptor) (url_substring : String)
    (expected_keys : List String) : Except PyErr Bool :=
  let matching_responses := get_responses st (some url_substring)
  match matching_responses.getLast? with
  | none => Except.ok false
  | some last_response =>
      match json_loads last_response.body with
      | none => Except.ok false
      | some response_json => checkKeys expected_keys response_json

/-- `validate_response_status(url_substring, expected_status)`: take the
last response whose url contains the substring; `False` if none; else
compare its status for exact equality. -/
def validate_response_status (st : APIInterceptor) (url_substring : String)
    (expected_status : Int) : Bool :=
  let matching_responses := get_responses st (some url_substring)
  match matching_responses.getLast? with
  | none => false
  | some last_response => last_response.status == expected_status

/-- The intercepted outgoing request (`route.request`). -/
structure RouteRequest where
  url : String
  method : String
  headers : List (String × String)
  post_data : Option String
deriving Repr, DecidableEq

/-- The real network response obtained by `route.fetch()`. `text_result`
models the `response.text()` call, which can raise (non-text content,
read error); `url` is the url carried by the fetched response itself,
which `_handle_route` never reads. -/
structure NetworkResponse where
  url : String
  status : Int
  status_text : String
  headers : List (String × String)
  text_result : Except String String
deriving Repr

/-- `_handle_route(route)` for one interception: append the request dict;
fetch; try to read the body and append the response dict (url taken from
`request.url`), swallowing any exception from `response.text()`; finally
fulfill the route with the fetched response. The second component is the
response passed to `route.fulfill`. `ts1`/`ts2` are the two
`_get_timestamp()` results. -/
def handle_route (st : APIInterceptor) (req : RouteRequest)
    (fetched : NetworkResponse) (ts1 ts2 : String) :
    APIInterceptor × NetworkResponse :=
  let request_data : CapturedRequest :=
    { url := req.url, method := req.method, headers := req.headers,
      post_data := req.post_data, timestamp := ts1 }
  let st1 := { st with requests := st.requests ++ [request_data] }
  match fetched.text_result with
  | Except.ok body =>
      let response_data : CapturedResponse :=
        { url := req.url, status := fetched.status,
          status_text := fetched.status_text, headers := fetched.headers,
          body := body, timestamp := ts2 }
      ({ st1 with responses := st1.responses ++ [response_data] }, fetched)
  | Except.error _ => (st1, fetched)

/-!
Method-call semantics: a Python method call on `self` is a state
transition returning a result and the state of `self` afterwards. The
bodies of the query and validation methods contain no assignment to
`self.requests` or `self.responses`, so each transition returns the
result computed above together with the unchanged state.
-/

/-- Calling `get_requests` as a method: result and resulting state. -/
def get_requests_call (st : APIInterceptor) (filter_url : Option String) :
    List CapturedRequest × APIInterceptor :=
  (get_requests st filter_url, st)

/-- Calling `get_responses` as a method: result and resulting state. -/
def get_responses_call (st : APIInterceptor) (filter_url : Option String) :
    List CapturedResponse × APIInterceptor :=
  (get_responses st filter_url, st)

/-- Calling `get_last_request` as a method: result and resulting state. -/
def get_last_request_call (st : APIInterceptor) :
    Option CapturedRequest × APIInterceptor :=
  (get_last_request st, st)

/-- Calling `get_last_response` as a method: result and resulting state. -/
def get_last_response_call (st : APIInterceptor) :
    Option CapturedResponse × APIInterceptor :=
  (get_last_response st, st)

/-- Calling `validate_request_contains` as a method: result and state. -/
def validate_request_contains_call (st : APIInterceptor) (url_substring : String)
    (expected_params : List (String × String)) : Bool × APIInterceptor :=
  (validate_request_contains st url_substring expected_params, st)

/-- Calling `validate_response_status` as a method: result and state. -/
def validate_response_status_call (st : APIInterceptor) (url_substring : String)
    (expected_status : Int) : Bool × APIInterceptor :=
  (validate_response_status st url_substring expected_status, st)

/-- Calling `validate_response_json_schema` as a method: result and state
(also unchanged when the `TypeError` escapes: the method writes nothing). -/
def validate_response_json_schema_call (st : APIInterceptor)
    (url_substring : String) (expected_keys : List String) :
    Except PyErr Bool × APIInterceptor :=
  (validate_response_json_schema st url_substring expected_keys, st)

/-- `json.loads` results on which Python `in` raises `TypeError`:
numbers, booleans and `None` are not iterable. -/
def jsonIsScalar : Json → Bool
  | Json.num _ _ => true
  | Json.bool _ => true
  | Json.null => true
  | _ => false

/-! ### Example states used by the spec's concrete scenarios -/

/-- The recorded request of the spec's worked example. -/
def specRequest : CapturedRequest :=
  { url := "https://api.example.com/discover?type=movie&category=top_rated",
    method := "GET", headers := [], post_data := none,
    timestamp := "2024-01-01T00:00:00" }

/-- A recorder state holding exactly `specRequest`. -/
def specReqState : APIInterceptor :=
  { requests := [specRequest], responses := [] }

/-- The recorded response of the spec's worked example: status 200, body
`{"results": [], "page": 1}`, url containing "discover". -/
def specResponse : CapturedResponse :=
  { url := "https://api.example.com/discover?type=movie", status := 200,
    status_text := "OK", headers := [],
    body := "\x7b\"results\": [], \"page\": 1\x7d",
    timestamp := "2024-01-01T00:00:01" }

/-- A recorder state holding exactly `specResponse`. -/
def specRespState : APIInterceptor :=
  { requests := [], responses := [specResponse] }

/-- A recorded response whose body is valid JSON but a JSON array, not an
object: `["results"]`. -/
def arrayBodyState : APIInterceptor :=
  { requests := [],
    responses := [{ url := "https://api.example.com/discover?type=movie",
                    status := 200, status_text := "OK", headers := [],
                    body := "[\"results\"]",
                    timestamp := "2024-01-01T00:00:02" }] }

/-- A recorded response whose body is the JSON number `5`. -/
def scalarBodyState : APIInterceptor :=
  { requests := [],
    responses := [{ url := "https://api.example.com/discover?type=movie",
                    status := 200, status_text := "OK", headers := [],
                    body := "5",
                    timestamp := "2024-01-01T00:00:03" }] }

/-- A recorded response whose body is not JSON at all: `not json`. -/
def notJsonState : APIInterceptor :=
  { requests := [],
    responses := [{ url := "https://api.example.com/discover?type=movie",
                    status := 200, status_text := "OK", headers := [],
                    body := "not json",
                    timestamp := "2024-01-01T00:00:04" }] }

/-- A request whose paired response body will fail to read. -/
def failReq : RouteRequest :=
  { url := "https://api.themoviedb.org/3/discover/movie", method := "GET",
    headers := [], post_data := none }

/-- A fetched response whose `text()` raises. -/
def failFetched : NetworkResponse :=
  { url := "https://api.themoviedb.org/3/discover/movie", status := 200,
    status_text := "OK", headers := [],
    text_result := Except.error "body read error" }

/-- An intercepted request used to exercise the handler on the success
path. -/
def okReq : RouteRequest :=
  { url := "https://api.themoviedb.org/3/discover/movie?page=1", method := "GET",
    headers := [], post_data := none }

/-- A fetched response carrying a different url than the request (for
example after a redirect); its body reads fine. -/
def okFetched : NetworkResponse :=
  { url := "https://cdn.example.net/redirected", status := 200,
    status_text := "OK", headers := [], text_result := Except.ok "\x7b\x7d" }

/-! ### Helper lemmas -/

/-- The empty string is a substring of every string (Python `"" in s`). -/
lemma strContains_empty (s : String) : strContains s "" = true :=
  decide_eq_true ⟨[], s.toList, rfl⟩

/-- Python truthiness notwithstanding, `get_requests` with any string
filter is exactly a filter by url containment: the empty-string filter
skips the comprehension but every url contains `""`. -/
lemma get_requests_eq_filter (st : APIInterceptor) (f : String) :
    get_requests st (some f) = st.requests.filter (fun r => strContains r.url f) := by
  simp only [get_requests]
  by_cases hf : f = ""
  · subst hf
    simp only [ne_eq, not_true_eq_false, if_false]
    exact (List.filter_eq_self.mpr (fun a _ => strContains_empty a.url)).symm
  · simp [hf]

/-- Same as `get_requests_eq_filter`, for responses. -/
lemma get_responses_eq_filter (st : APIInterceptor) (f : String) :
    get_responses st (some f) = st.responses.filter (fun r => strContains r.url f) := by
  simp only [get_responses]
  by_cases hf : f = ""
  · subst hf
    simp only [ne_eq, not_true_eq_false, if_false]
    exact (List.filter_eq_self.mpr (fun a _ => strContains_empty a.url)).symm
  · simp [hf]

/-- On a parsed JSON object the key loop computes `all`-membership over
the entry keys and never raises. -/
lemma checkKeys_obj (keys : List String) (kvs : List (String × Json)) :
    checkKeys keys (Json.obj kvs)
      = Except.ok (keys.all (fun k => kvs.any (fun p => p.1 == k))) := by
  induction keys with
  | nil => rfl
  | cons k ks ih =>
      simp only [checkKeys, pyInJson, List.all_cons]
      by_cases hb : kvs.any (fun p => p.1 == k) = true
      · simp [hb, ih]
      · simp [Bool.not_eq_true] at hb
        simp [hb]

/-- `in` never raises on a parsed object, array or string. -/
lemma pyInJson_ok_of_not_scalar (k : String) (v : Json)
    (hv : jsonIsScalar v = false) : ∃ b, pyInJson k v = Except.ok b := by
  cases v <;> simp_all [jsonIsScalar, pyInJson]

/-- The key loop never raises on a parsed object, array or string. -/
lemma checkKeys_ok_of_not_scalar (keys : List String) (v : Json)
    (hv : jsonIsScalar v = false) : ∃ b, checkKeys keys v = Except.ok b := by
  induction keys with
  | nil => exact ⟨true, rfl⟩
  | cons k ks ih =>
      obtain ⟨b, hb⟩ := pyInJson_ok_of_not_scalar k v hv
      obtain ⟨c, hc⟩ := ih
      cases b
      · exact ⟨false, by simp [checkKeys, hb]⟩
      · exact ⟨c, by simp [checkKeys, hb, hc]⟩

/-! ### Claim theorems -/

/-- C1: `validate_request_contains(urlSubstring, expectedParams)` returns
false when no recorded request url contains the substring; otherwise,
with R the most recently appended matching request, it returns true iff
every `param=value` pair occurs literally in R's url. On the spec's
example request, `("type","movie")` passes and `("type","tv")` fails. -/
theorem validate_request_contains_spec (st : APIInterceptor) (us : String)
    (ps : List (String × String)) :
    (st.requests.filter (fun r => strContains r.url us) = [] →
        validate_request_contains st us ps = false)
    ∧ (∀ R, (st.requests.filter (fun r => strContains r.url us)).getLast? = some R →
        (validate_request_contains st us ps = true ↔
          ∀ pv ∈ ps, strContains R.url (pv.1 ++ "=" ++ pv.2) = true))
    ∧ validate_request_contains specReqState "discover" [("type", "movie")] = true
    ∧ validate_request_contains specReqState "discover" [("type", "tv")] = false := by
  refine ⟨?_, ?_, by decide, by decide⟩
  · intro h
    simp only [validate_request_contains, get_requests_eq_filter, h]
    rfl
  · intro R hR
    simp only [validate_request_contains, get_requests_eq_filter, hR]
    simp [List.all_eq_true]

/-- Witness for C1: the spec's two concrete checks, derived by applying
the general theorem at the example state. -/
theorem validate_request_contains_spec_witness :
    validate_request_contains specReqState "discover" [("type", "movie")] = true
    ∧ validate_request_contains specReqState "discover" [("type", "tv")] = false := by
  constructor
  · exact ((validate_request_contains_spec specReqState "discover"
      [("type", "movie")]).2.1 specRequest (by decide)).mpr (by decide)
  · have h := (validate_request_contains_spec specReqState "discover"
      [("type", "tv")]).2.1 specRequest (by decide)
    have h2 : ¬ ∀ pv ∈ [("type", "tv")],
        strContains specRequest.url (pv.1 ++ "=" ++ pv.2) = true := by decide
    exact Bool.eq_false_iff.mpr (fun hc => h2 (h.mp hc))

/-- C5: `validate_response_status(urlSubstring, expectedStatus)` returns
false when no recorded response url contains the substring; otherwise it
returns true iff the most recently appended matching response's status
equals the expected status exactly. On the spec's example response,
status 200 passes and 404 fails. -/
theorem validate_response_status_spec (st : APIInterceptor) (us : String)
    (status : Int) :
    (st.responses.filter (fun r => strContains r.url us) = [] →
        validate_response_status st us status = false)
    ∧ (∀ R, (st.responses.filter (fun r => strContains r.url us)).getLast? = some R →
        (validate_response_status st us status = true ↔ R.status = status))
    ∧ validate_response_status specRespState "discover" 200 = true
    ∧ validate_response_status specRespState "discover" 404 = false := by
  refine ⟨?_, ?_, by decide, by decide⟩
  · intro h
    simp only [validate_response_status, get_responses_eq_filter, h]
    rfl
  · intro R hR
    simp only [validate_response_status, get_responses_eq_filter, hR]
    simp [beq_iff_eq]

/-- Witness for C5: the spec's two concrete status checks, via the
general theorem at the example state. -/
theorem validate_response_status_spec_witness :
    validate_response_status specRespState "discover" 200 = true
    ∧ validate_response_status specRespState "discover" 404 = false := by
  constructor
  · exact ((validate_response_status_spec specRespState "discover" 200).2.1
      specResponse (by decide)).mpr (by decide)
  · have h := (validate_response_status_spec specRespState "discover" 404).2.1
      specResponse (by decide)
    have h2 : ¬ specResponse.status = 404 := by decide
    exact Bool.eq_false_iff.mpr (fun hc => h2 (h.mp hc))

/-- C6: `get_requests`/`get_responses` with a filter return exactly the
url-containment filter of the log — an order-preserving subsequence — and
without a filter return the full log. -/
theorem get_filtered_spec (st : APIInterceptor) (f : String) :
    get_requests st (some f) = st.requests.filter (fun r => strContains r.url f)
    ∧ get_responses st (some f) = st.responses.filter (fun r => strContains r.url f)
    ∧ get_requests st none = st.requests
    ∧ get_responses st none = st.responses
    ∧ (get_requests st (some f)).Sublist st.requests
    ∧ (get_responses st (some f)).Sublist st.responses := by
  refine ⟨get_requests_eq_filter st f, get_responses_eq_filter st f, rfl, rfl, ?_, ?_⟩
  · rw [get_requests_eq_filter]
    exact List.filter_sublist _
  · rw [get_responses_eq_filter]
    exact List.filter_sublist _

/-- C7: immediately after `clear_history()` the state is the freshly
constructed one, the last-entry queries return none, and both list
queries return the empty sequence for every filter argument. -/
theorem clear_history_spec (st : APIInterceptor) (f : Option String) :
    clear_history st = APIInterceptor.init
    ∧ get_last_request (clear_history st) = none
    ∧ get_last_response (clear_history st) = none
    ∧ get_requests (clear_history st) f = []
    ∧ get_responses (clear_history st) f = [] := by
  refine ⟨rfl, rfl, rfl, ?_, ?_⟩
  · cases f with
    | none => rfl
    | some g => simp [get_requests, clear_history]
  · cases f with
    | none => rfl
    | some g => simp [get_responses, clear_history]

/-- C8: every validation method leaves the recorder state — and hence
every subsequent `get_requests`/`get_responses` query — unchanged. -/
theorem validators_frame_spec (st : APIInterceptor) (us : String)
    (ps : List (String × String)) (status : Int) (keys : List String)
    (f : Option String) :
    (validate_request_contains_call st us ps).2 = st
    ∧ (validate_response_status_call st us status).2 = st
    ∧ (validate_response_json_schema_call st us keys).2 = st
    ∧ get_requests (validate_request_contains_call st us ps).2 f = get_requests st f
    ∧ get_responses (validate_request_contains_call st us ps).2 f = get_responses st f
    ∧ get_requests (validate_response_status_call st us status).2 f = get_requests st f
    ∧ get_responses (validate_response_status_call st us status).2 f = get_responses st f
    ∧ get_requests (validate_response_json_schema_call st us keys).2 f = get_requests st f
    ∧ get_responses (validate_response_json_schema_call st us keys).2 f = get_responses st f :=
  ⟨rfl, rfl, rfl, rfl, rfl, rfl, rfl, rfl, rfl⟩

/-- C9: every query and validation method is idempotent as a read:
calling it twice in a row with the same arguments and no intervening
capture yields the same result (and the same state) both times. -/
theorem reads_idempotent_spec (st : APIInterceptor) (f : Option String)
    (us : String) (ps : List (String × String)) (status : Int)
    (keys : List String) :
    (get_requests_call (get_requests_call st f).2 f).1 = (get_requests_call st f).1
    ∧ (get_responses_call (get_responses_call st f).2 f).1 = (get_responses_call st f).1
    ∧ (get_last_request_call (get_last_request_call st).2).1 = (get_last_request_call st).1
    ∧ (get_last_response_call (get_last_response_call st).2).1 = (get_last_response_call st).1
    ∧ (validate_request_contains_call (validate_request_contains_call st us ps).2 us ps).1
        = (validate_request_contains_call st us ps).1
    ∧ (validate_response_status_call (validate_response_status_call st us status).2 us status).1
        = (validate_response_status_call st us status).1
    ∧ (validate_response_json_schema_call (validate_response_json_schema_call st us keys).2 us keys).1
        = (validate_response_json_schema_call st us keys).1
    ∧ (validate_request_contains_call (validate_request_contains_call st us ps).2 us ps).2
        = (validate_request_contains_call st us ps).2 :=
  ⟨rfl, rfl, rfl, rfl, rfl, rfl, rfl, rfl⟩

/-- Counterexample to C2 as stated: the body `["results"]` is valid JSON
but not a JSON object, so the claim demands `false`; the code parses it,
runs Python `in` against the list, finds the element `"results"`, and
returns `True`. -/
theorem validate_response_json_schema_nonobject_cex :
    validate_response_json_schema arrayBodyState "discover" ["results"] = Except.ok true
    ∧ json_loads "[\"results\"]" = some (Json.arr [Json.str "results"]) :=
  ⟨rfl, rfl⟩

/-- C2 (amended): `validate_response_json_schema` returns false when no
response url contains the substring or when the most recent matching
response's body fails JSON parsing entirely; when the body parses to a
JSON object, it returns true iff every expected key is a top-level key.
(When the body parses to non-object JSON, Python `in` semantics apply
instead.) The spec's two concrete checks hold. -/
theorem validate_response_json_schema_spec_amended (st : APIInterceptor)
    (us : String) (keys : List String) :
    (st.responses.filter (fun r => strContains r.url us) = [] →
        validate_response_json_schema st us keys = Except.ok false)
    ∧ (∀ R, (st.responses.filter (fun r => strContains r.url us)).getLast? = some R →
        json_loads R.body = none →
        validate_response_json_schema st us keys = Except.ok false)
    ∧ (∀ R kvs, (st.responses.filter (fun r => strContains r.url us)).getLast? = some R →
        json_loads R.body = some (Json.obj kvs) →
        (validate_response_json_schema st us keys = Except.ok true ↔
          ∀ k ∈ keys, ∃ p ∈ kvs, p.1 = k))
    ∧ validate_response_json_schema specRespState "discover" ["results", "page"]
        = Except.ok true
    ∧ validate_response_json_schema specRespState "discover" ["total_pages"]
        = Except.ok false := by
  refine ⟨?_, ?_, ?_, by rfl, by rfl⟩
  · intro h
    simp only [validate_response_json_schema, get_responses_eq_filter, h]
    rfl
  · intro R hR hj
    simp only [validate_response_json_schema, get_responses_eq_filter, hR, hj]
  · intro R kvs hR hj
    simp only [validate_response_json_schema, get_responses_eq_filter, hR, hj,
      checkKeys_obj]
    simp [List.all_eq_true, List.any_eq_true]

/-- Witness for C2 (amended): the spec's positive check derived from the
object clause, and a parse-failure check derived from the malformed-JSON
clause. -/
theorem validate_response_json_schema_spec_witness :
    validate_response_json_schema specRespState "discover" ["results", "page"]
      = Except.ok true
    ∧ validate_response_json_schema notJsonState "discover" ["results"]
      = Except.ok false := by
  constructor
  · exact ((validate_response_json_schema_spec_amended specRespState "discover"
      ["results", "page"]).2.2.1 specResponse
      [("results", Json.arr []), ("page", Json.num 1 0)]
      (by decide) (by rfl)).mpr (by decide)
  · exact (validate_response_json_schema_spec_amended notJsonState "discover"
      ["results"]).2.1
      { url := "https://api.example.com/discover?type=movie", status := 200,
        status_text := "OK", headers := [], body := "not json",
        timestamp := "2024-01-01T00:00:04" }
      (by decide) (by rfl)

/-- Counterexample to C3 as stated: on a most-recent matching response
whose body is the JSON number `5`, the key loop evaluates Python
`"x" in 5`, which raises `TypeError`; only `JSONDecodeError` is caught,
so the exception escapes instead of a boolean being returned. -/
theorem validate_json_schema_typeerror_cex :
    validate_response_json_schema scalarBodyState "discover" ["x"]
      = Except.error PyErr.typeError :=
  rfl

/-- C3 (amended): `validate_response_json_schema` never propagates a JSON
parsing error — an unparseable body yields `false` — and the only
exception it can raise is `TypeError`, which occurs only when the body
parses to a JSON number, boolean or null and the key list is nonempty. -/
theorem validators_exception_spec (st : APIInterceptor) (us : String)
    (keys : List String) :
    (∀ e, validate_response_json_schema st us keys = Except.error e →
        e = PyErr.typeError ∧ keys ≠ [] ∧
        ∃ R v, (st.responses.filter (fun r => strContains r.url us)).getLast? = some R
          ∧ json_loads R.body = some v ∧ jsonIsScalar v = true)
    ∧ (∀ R, (st.responses.filter (fun r => strContains r.url us)).getLast? = some R →
        json_loads R.body = none →
        validate_response_json_schema st us keys = Except.ok false) := by
  constructor
  · intro e he
    simp only [validate_response_json_schema, get_responses_eq_filter] at he
    cases hL : (st.responses.filter (fun r => strContains r.url us)).getLast? with
    | none => rw [hL] at he; simp at he
    | some R =>
        rw [hL] at he
        replace he : (match json_loads R.body with
          | none => Except.ok false
          | some response_json => checkKeys keys response_json) = Except.error e := he
        cases hj : json_loads R.body with
        | none => rw [hj] at he; simp at he
        | some v =>
            rw [hj] at he
            replace he : checkKeys keys v = Except.error e := he
            by_cases hs : jsonIsScalar v = true
            · cases keys with
              | nil => simp [checkKeys] at he
              | cons k ks =>
                  have hpy : pyInJson k v = Except.error PyErr.typeError := by
                    cases v <;> simp_all [jsonIsScalar, pyInJson]
                  have herr : checkKeys (k :: ks) v = Except.error PyErr.typeError := by
                    simp [checkKeys, hpy]
                  injection herr.symm.trans he with hee
                  exact ⟨hee.symm, by simp, R, v, rfl, hj, hs⟩
            · obtain ⟨b, hb⟩ := checkKeys_ok_of_not_scalar keys v
                (Bool.not_eq_true _ ▸ hs)
              rw [hb] at he
              simp at he
  · intro R hR hj
    simp only [validate_response_json_schema, get_responses_eq_filter, hR, hj]

/-- Witness for C3 (amended): the spec's in-particular case — a non-JSON
body (`"not json"`) yields `false` and no exception — via the
parse-failure clause of the theorem. -/
theorem validators_exception_spec_witness :
    validate_response_json_schema notJsonState "discover" ["total_pages", "x"]
      = Except.ok false :=
  (validators_exception_spec notJsonState "discover" ["total_pages", "x"]).2
    { url := "https://api.example.com/discover?type=movie", status := 200,
      status_text := "OK", headers := [], body := "not json",
      timestamp := "2024-01-01T00:00:04" }
    (by decide) (by rfl)

/-- C4: when `response.text()` raises during one handler invocation, the
request log still gets exactly that exchange's CapturedRequest appended,
the response log is untouched, and the route is still fulfilled with the
real fetched response. -/
theorem handle_route_body_failure (st : APIInterceptor) (req : RouteRequest)
    (fetched : NetworkResponse) (ts1 ts2 : String) (e : String)
    (h : fetched.text_result = Except.error e) :
    (handle_route st req fetched ts1 ts2).1.requests
      = st.requests ++ [{ url := req.url, method := req.method,
                          headers := req.headers, post_data := req.post_data,
                          timestamp := ts1 }]
    ∧ (handle_route st req fetched ts1 ts2).1.responses = st.responses
    ∧ (handle_route st req fetched ts1 ts2).2 = fetched := by
  simp [handle_route, h]

/-- Witness for C4: on a fresh recorder, a failing body read leaves one
captured request, no captured response, and the real response fulfilled. -/
theorem handle_route_body_failure_witness :
    (handle_route APIInterceptor.init failReq failFetched "t1" "t2").1.requests
      = [{ url := failReq.url, method := failReq.method,
                          headers := failReq.headers,
                          post_data := failReq.post_data, timestamp := "t1" }]
    ∧ (handle_route APIInterceptor.init failReq failFetched "t1" "t2").1.responses = []
    ∧ (handle_route APIInterceptor.init failReq failFetched "t1" "t2").2 = failFetched := by
  have h := handle_route_body_failure APIInterceptor.init failReq failFetched
    "t1" "t2" "body read error" rfl
  simpa using h

/-- C10: every response entry the handler appends carries the intercepted
request's url (never the fetched response's own url), and when one
invocation records both a request and a response the two entries carry
the same url. -/
theorem response_url_from_request_spec (st : APIInterceptor) (req : RouteRequest)
    (fetched : NetworkResponse) (ts1 ts2 : String) (body : String) :
    (∀ r ∈ (handle_route st req fetched ts1 ts2).1.responses,
        r ∈ st.responses ∨ r.url = req.url)
    ∧ (fetched.text_result = Except.ok body →
        ((handle_route st req fetched ts1 ts2).1.responses.getLast?).map
            CapturedResponse.url = some req.url
        ∧ ((handle_route st req fetched ts1 ts2).1.requests.getLast?).map
            CapturedRequest.url = some req.url) := by
  constructor
  · intro r hr
    cases htext : fetched.text_result with
    | ok b =>
        simp only [handle_route, htext] at hr
        rcases List.mem_append.mp hr with h | h
        · exact Or.inl h
        · right
          simp only [List.mem_singleton] at h
          subst h
          rfl
    | error e =>
        simp only [handle_route, htext] at hr
        exact Or.inl hr
  · intro hok
    simp only [handle_route, hok]
    exact ⟨by simp [List.getLast?_concat], by simp [List.getLast?_concat]⟩

/-- Witness for C10: the recorded response's url is the request's url even
though the fetched response carries a different one. -/
theorem response_url_from_request_witness :
    ((handle_route APIInterceptor.init okReq okFetched "t1" "t2").1.responses.getLast?).map
        CapturedResponse.url = some okReq.url
    ∧ ((handle_route APIInterceptor.init okReq okFetched "t1" "t2").1.requests.getLast?).map
        CapturedRequest.url = some okReq.url
    ∧ okFetched.url ≠ okReq.url := by
  have h := (response_url_from_request_spec APIInterceptor.init okReq okFetched
    "t1" "t2" "\x7b\x7d").2 rfl
  exact ⟨h.1, h.2, by decide⟩
